import Mathlib

/-!
Shallow embedding of the RentalContract ledger (src/RC3.sol) and of the
client-side reconciliation logic of RentalApp (src/RentalApp.jsx).

Machine integers (uint256) are modelled as Nat with Solidity 0.8 checked
arithmetic: a subtraction that would underflow, or an addition or
multiplication whose result would reach 2^256, reverts; a revert is modelled
by Except.error. Signed int256 coordinates are modelled as Int, with checked
int256 subtraction and negation that revert when the result leaves the
int256 range.
-/

set_option maxRecDepth 16384

deriving instance DecidableEq for Except

namespace RentalLedger

/-- Bound of uint256 values: Solidity 0.8 checked arithmetic reverts at 2^256. -/
def UMAX : Nat := 2 ^ 256

/-- Checked uint256 subtraction: reverts (error) on underflow. -/
def csub (a b : Nat) : Except String Nat :=
  if b ≤ a then Except.ok (a - b) else Except.error "arithmetic underflow"

/-- Checked uint256 addition: reverts (error) on overflow. -/
def cadd (a b : Nat) : Except String Nat :=
  if a + b < UMAX then Except.ok (a + b) else Except.error "arithmetic overflow"

/-- Checked uint256 multiplication: reverts (error) on overflow. -/
def cmul (a b : Nat) : Except String Nat :=
  if a * b < UMAX then Except.ok (a * b) else Except.error "arithmetic overflow"

/-- Smallest int256 value. -/
def IMIN : Int := -(2 ^ 255)

/-- Largest int256 value. -/
def IMAX : Int := 2 ^ 255 - 1

/-- Checked int256 subtraction: reverts (error) when the difference leaves
the int256 range. -/
def isub (a b : Int) : Except String Int :=
  if IMIN ≤ a - b ∧ a - b ≤ IMAX then Except.ok (a - b)
  else Except.error "arithmetic overflow"

/-- Absolute value as computed by `uint256(d >= 0 ? d : -d)` on an int256
value d: the checked negation reverts exactly at the smallest int256, whose
negation leaves the range; the cast of the nonnegative result to uint256 is
value-preserving. -/
def iabs (d : Int) : Except String Nat :=
  if d = IMIN then Except.error "arithmetic overflow" else Except.ok d.natAbs

/-- Immutable configuration fixed by the constructor of RentalContract:
owner, lessor, pricePerSecond, minDeposit and the geo-zone parameters.
The constructor stores radiusSquared = radius * radius; we keep radius and
recompute the square where the source reads radiusSquared. Addresses are
modelled as Nat. -/
structure Config where
  owner : Nat
  lessor : Nat
  pricePerSecond : Nat
  minDeposit : Nat
  centerLat : Int
  centerLon : Int
  radius : Nat
deriving DecidableEq

/-- The Rental struct of RC3.sol (the singleton activeRental record). -/
structure Rental where
  renter : Nat
  startTime : Nat
  endTime : Nat
  deposit : Nat
  pausedDuration : Nat
  lastPausedAt : Nat
  isActive : Bool
  isPaused : Bool
deriving DecidableEq

/-- Mutable contract state: the activeRental record plus the ether balance
held by the contract. -/
structure CState where
  rental : Rental
  balance : Nat
deriving DecidableEq

/-- Solidity zero-initialises storage: the contract starts with an all-zero
Rental record. -/
def initRental : Rental :=
  { renter := 0, startTime := 0, endTime := 0, deposit := 0,
    pausedDuration := 0, lastPausedAt := 0, isActive := false, isPaused := false }

/-- Initial contract state right after deployment (the constructor is not
payable, so the balance starts at 0). -/
def initState : CState :=
  { rental := initRental, balance := 0 }

/-- Embedding of _withinGeoZone (RC3.sol lines 186-196): planar membership
test with integer arithmetic, 1 degree approximated by 111000 m, inclusive
comparison dist2 <= radiusSquared. Every arithmetic step is checked as in
Solidity 0.8, in source order: the two int256 differences, then for each
axis the negation/cast and the uint256 multiplication by 111000 (integer
division cannot revert), then the two squarings and their sum; any overflow
reverts with a panic instead of reaching the comparison. The comparison
reads the stored radiusSquared = radius * radius (checked once by the
constructor). -/
def withinGeoZone (cfg : Config) (latE6 lonE6 : Int) : Except String Bool :=
  match isub latE6 cfg.centerLat with
  | Except.error e => Except.error e
  | Except.ok dLat =>
    match isub lonE6 cfg.centerLon with
    | Except.error e => Except.error e
    | Except.ok dLon =>
      match iabs dLat with
      | Except.error e => Except.error e
      | Except.ok aLat =>
        match cmul aLat 111000 with
        | Except.error e => Except.error e
        | Except.ok pLat =>
          let metersLat : Nat := pLat / 1000000
          match iabs dLon with
          | Except.error e => Except.error e
          | Except.ok aLon =>
            match cmul aLon 111000 with
            | Except.error e => Except.error e
            | Except.ok pLon =>
              let metersLon : Nat := pLon / 1000000
              match cmul metersLat metersLat with
              | Except.error e => Except.error e
              | Except.ok sLat =>
                match cmul metersLon metersLon with
                | Except.error e => Except.error e
                | Except.ok sLon =>
                  match cadd sLat sLon with
                  | Except.error e => Except.error e
                  | Except.ok dist2 =>
                    Except.ok (decide (dist2 ≤ cfg.radius * cfg.radius))

/-- Embedding of calculateUsedTime (RC3.sol lines 156-167). All three
subtractions are checked uint256 subtractions, so a state in which one of
them underflows makes the call revert. -/
def calculateUsedTime (r : Rental) (now : Nat) : Except String Nat :=
  if r.isActive = false then Except.ok 0
  else
    let baseTime : Nat := if r.isPaused = true then r.lastPausedAt else now
    match csub baseTime r.startTime with
    | Except.error e => Except.error e
    | Except.ok d1 =>
      match csub d1 r.pausedDuration with
      | Except.error e => Except.error e
      | Except.ok elapsed =>
        match csub r.endTime r.startTime with
        | Except.error e => Except.error e
        | Except.ok maxDuration =>
          Except.ok (if elapsed > maxDuration then maxDuration else elapsed)

/-- Embedding of getStatus (RC3.sol lines 170-175). -/
def getStatus (r : Rental) (now : Nat) : String :=
  if r.isActive = false then "Available"
  else if r.isPaused = true then "Paused"
  else if now > r.endTime then "Overdue"
  else "Active"

/-- Embedding of rent (RC3.sol lines 77-99). The four require guards are
checked in source order; the fourth evaluates _withinGeoZone, so an
arithmetic panic inside the zone test propagates as that panic, while a
clean false yields the require reason. value is msg.value, which on success
is added to the contract balance. -/
def rent (cfg : Config) (st : CState) (now sender value duration : Nat)
    (latE6 lonE6 : Int) : Except String CState :=
  if st.rental.isActive = true then Except.error "Already rented"
  else if value < cfg.minDeposit then Except.error "Deposit too low"
  else if duration = 0 then Except.error "Invalid duration"
  else
    match withinGeoZone cfg latE6 lonE6 with
    | Except.error e => Except.error e
    | Except.ok false => Except.error "Not within allowed zone"
    | Except.ok true =>
      match cadd now duration with
      | Except.error e => Except.error e
      | Except.ok endT =>
        Except.ok
          { rental :=
              { renter := sender, startTime := now, endTime := endT,
                deposit := value, pausedDuration := 0, lastPausedAt := 0,
                isActive := true, isPaused := false },
            balance := st.balance + value }

/-- Embedding of pauseRental (RC3.sol lines 102-111). -/
def pauseRental (st : CState) (now sender : Nat) : Except String CState :=
  if st.rental.isActive = false then Except.error "No active rental"
  else if st.rental.isPaused = true then Except.error "Already paused"
  else if sender ≠ st.rental.renter then Except.error "Not renter"
  else
    Except.ok
      { st with rental := { st.rental with isPaused := true, lastPausedAt := now } }

/-- Embedding of resumeRental (RC3.sol lines 114-123). The increment of
pausedDuration uses checked subtraction and addition. -/
def resumeRental (st : CState) (now sender : Nat) : Except String CState :=
  if st.rental.isActive = false then Except.error "No active rental"
  else if st.rental.isPaused = false then Except.error "Not paused"
  else if sender ≠ st.rental.renter then Except.error "Not renter"
  else
    match csub now st.rental.lastPausedAt with
    | Except.error e => Except.error e
    | Except.ok delta =>
      match cadd st.rental.pausedDuration delta with
      | Except.error e => Except.error e
      | Except.ok pd =>
        Except.ok
          { st with rental := { st.rental with pausedDuration := pd, isPaused := false } }

/-- Observable effects of an operation, in the order the source performs
them: the storage write deactivating the rental, and external transfer
calls. -/
inductive Eff where
  | deactivate : Eff
  | transfer (toAddr amount : Nat) : Eff
deriving DecidableEq

/-- Settlement figures emitted by the RentalEnded event. -/
structure Settlement where
  usedSeconds : Nat
  amountPaid : Nat
  refundAmount : Nat
deriving DecidableEq

/-- Embedding of returnEquipment (RC3.sol lines 126-153). Returns the new
state, the settlement figures of the RentalEnded event, and the ordered list
of effects: the write isActive := false is recorded first, then the
conditional transfers to the lessor and the renter (each transfer debits the
contract balance and is skipped when its amount is 0, as in the source). -/
def returnEquipment (cfg : Config) (st : CState) (now sender : Nat) :
    Except String (CState × Settlement × List Eff) :=
  if st.rental.isActive = false then Except.error "No active rental"
  else if sender ≠ st.rental.renter then Except.error "Not renter"
  else
    match calculateUsedTime st.rental now with
    | Except.error e => Except.error e
    | Except.ok usedSeconds =>
      match cmul usedSeconds cfg.pricePerSecond with
      | Except.error e => Except.error e
      | Except.ok due =>
        let amountDue : Nat := if due > st.rental.deposit then st.rental.deposit else due
        let refundAmount : Nat :=
          if due > st.rental.deposit then 0 else st.rental.deposit - due
        let newRental : Rental := { st.rental with isActive := false }
        match (if amountDue > 0 then csub st.balance amountDue else Except.ok st.balance) with
        | Except.error e => Except.error e
        | Except.ok b1 =>
          match (if refundAmount > 0 then csub b1 refundAmount else Except.ok b1) with
          | Except.error e => Except.error e
          | Except.ok b2 =>
            Except.ok
              ({ rental := newRental, balance := b2 },
               { usedSeconds := usedSeconds, amountPaid := amountDue,
                 refundAmount := refundAmount },
               Eff.deactivate ::
                 ((if amountDue > 0 then [Eff.transfer cfg.lessor amountDue] else []) ++
                  (if refundAmount > 0 then [Eff.transfer st.rental.renter refundAmount] else [])))

/-- Embedding of emergencyWithdraw (RC3.sol lines 178-183): the onlyOwner
modifier check runs before the body guard; on success the full balance is
swept to the owner. -/
def emergencyWithdraw (cfg : Config) (st : CState) (sender : Nat) :
    Except String (CState × List Eff) :=
  if sender ≠ cfg.owner then Except.error "Owner only"
  else if st.rental.isActive = true then Except.error "Active rental exists"
  else Except.ok ({ st with balance := 0 }, [Eff.transfer cfg.owner st.balance])

/-- One external call to the ledger, with its sender and arguments. -/
inductive Op where
  | rentOp (sender value duration : Nat) (latE6 lonE6 : Int)
  | pauseOp (sender : Nat)
  | resumeOp (sender : Nat)
  | retOp (sender : Nat)
  | withdrawOp (sender : Nat)
deriving DecidableEq

/-- Dispatch of an external call at time now against the current state. -/
def exec (cfg : Config) (st : CState) (now : Nat) : Op → Except String CState
  | Op.rentOp sender value duration latE6 lonE6 =>
      rent cfg st now sender value duration latE6 lonE6
  | Op.pauseOp sender => pauseRental st now sender
  | Op.resumeOp sender => resumeRental st now sender
  | Op.retOp sender =>
      match returnEquipment cfg st now sender with
      | Except.ok out => Except.ok out.1
      | Except.error e => Except.error e
  | Op.withdrawOp sender =>
      match emergencyWithdraw cfg st sender with
      | Except.ok out => Except.ok out.1
      | Except.error e => Except.error e

/-- State left behind by a call: a revert (error) leaves the state unchanged,
a success installs the new state. -/
def applyOp (cfg : Config) (st : CState) (now : Nat) (op : Op) : CState :=
  match exec cfg st now op with
  | Except.ok s' => s'
  | Except.error _ => st

/-- States reachable from the freshly deployed contract by successful calls,
indexed by the time of the last call; block timestamps are non-decreasing. -/
inductive Reachable (cfg : Config) : Nat → CState → Prop where
  | init : Reachable cfg 0 initState
  | step (t t' : Nat) (s s' : CState) (op : Op) (hr : Reachable cfg t s)
      (hle : t ≤ t') (hexec : exec cfg s t' op = Except.ok s') :
      Reachable cfg t' s'

/-- Reachability restricted to traces in which returnEquipment is only ever
invoked on a non-paused rental. -/
inductive ReachableG (cfg : Config) : Nat → CState → Prop where
  | init : ReachableG cfg 0 initState
  | step (t t' : Nat) (s s' : CState) (op : Op) (hr : ReachableG cfg t s)
      (hle : t ≤ t') (hexec : exec cfg s t' op = Except.ok s')
      (hret : ∀ a, op = Op.retOp a → s.rental.isPaused = false) :
      ReachableG cfg t' s'

/-- Temporal well-formedness of an active rental record at ledger time t:
the rental started no later than it ends, and the accumulated pause time
never exceeds the active window measured at the pause anchor (lastPausedAt
while paused, t otherwise). -/
def ActiveInv (t : Nat) (r : Rental) : Prop :=
  r.isActive = true →
    r.startTime ≤ r.endTime ∧
    (r.isPaused = true → r.startTime + r.pausedDuration ≤ r.lastPausedAt ∧ r.lastPausedAt ≤ t) ∧
    (r.isPaused = false → r.startTime + r.pausedDuration ≤ t)

/-- Concrete configuration used by witnesses and counterexamples. -/
def cfg0 : Config :=
  { owner := 0, lessor := 1, pricePerSecond := 1, minDeposit := 10,
    centerLat := 0, centerLon := 0, radius := 100 }

/-- State after rent(duration := 10) by sender 2 with value 10 at time 0. -/
def sRent : CState :=
  { rental :=
      { renter := 2, startTime := 0, endTime := 10, deposit := 10,
        pausedDuration := 0, lastPausedAt := 0, isActive := true, isPaused := false },
    balance := 10 }

/-- State after additionally pauseRental at time 1. -/
def sPaused : CState :=
  { rental :=
      { renter := 2, startTime := 0, endTime := 10, deposit := 10,
        pausedDuration := 0, lastPausedAt := 1, isActive := true, isPaused := true },
    balance := 10 }

/-- State after additionally returnEquipment at time 2: the rental is
deactivated while the pause flag is left set. -/
def sReturned : CState :=
  { rental :=
      { renter := 2, startTime := 0, endTime := 10, deposit := 10,
        pausedDuration := 0, lastPausedAt := 1, isActive := false, isPaused := true },
    balance := 0 }

/-- State after rent(duration := 100) by sender 2 with value 100 at time 0. -/
def sRentLong : CState :=
  { rental :=
      { renter := 2, startTime := 0, endTime := 100, deposit := 100,
        pausedDuration := 0, lastPausedAt := 0, isActive := true, isPaused := false },
    balance := 100 }

/-- State after additionally returnEquipment at time 60: inactive, with the
stale startTime and endTime of the finished rental still stored. -/
def sStale : CState :=
  { rental :=
      { renter := 2, startTime := 0, endTime := 100, deposit := 100,
        pausedDuration := 0, lastPausedAt := 0, isActive := false, isPaused := false },
    balance := 0 }

end RentalLedger

namespace RentalApp

/-- Client-side local state of RentalApp.jsx relevant to pause/resume
reconciliation: the optimistic rental.isPaused flag, the forcedPauseReason
flag (null or "zone"), the polled contract status, the mirrored
pausedDuration, and the user-visible status message (rental.status). -/
structure LocalState where
  isPaused : Bool
  forcedPauseReason : Option String
  contractStatus : String
  totalPausedDuration : Nat
  statusMsg : String
deriving DecidableEq

/-- Resolution of an asynchronous ledger transaction. -/
inductive TxOutcome where
  | confirmed
  | failed (reason : String)
deriving DecidableEq

/-- Optimistic local mutations performed by the position tick when the
simulated position leaves the allowed zone (RentalApp.jsx lines 261-266):
pauseRental() is issued fire-and-forget and, immediately and regardless of
its outcome, forcedPauseReason is set, the local pause flag is set, and a
zone warning is shown. -/
def autoPauseZoneExit (s : LocalState) : LocalState :=
  { s with forcedPauseReason := some "zone", isPaused := true,
           statusMsg := "Marker: rabota priostanovlena, vy pokinuli rabochuyu zonu" }

/-- Resolution of the fire-and-forget auto-pause (or auto-resume)
transaction: the only failure handler is catch(e => console.error(...)), so
neither outcome changes any local state (RentalApp.jsx lines 261-263 and
273-275). -/
def resolveAutoPauseTx (s : LocalState) : TxOutcome → LocalState
  | TxOutcome.confirmed => s
  | TxOutcome.failed _ => s

/-- User-visible error text produced by handlePause's catch handler. -/
def errText (reason : String) : String := "Oshibka: " ++ reason

/-- Embedding of handlePause (RentalApp.jsx lines 315-347): the local pause
flag is flipped optimistically before the transaction is awaited; on
confirmation the authoritative status, pause flag and pausedDuration are
installed; on failure the catch handler flips the local flag back and
surfaces an error message. -/
def handlePause (s : LocalState) (outcome : TxOutcome)
    (authStatus : String) (authIsPaused : Bool) (authPausedDuration : Nat) : LocalState :=
  let s1 : LocalState := { s with isPaused := !s.isPaused }
  match outcome with
  | TxOutcome.confirmed =>
      { s1 with contractStatus := authStatus, isPaused := authIsPaused,
                totalPausedDuration := authPausedDuration }
  | TxOutcome.failed reason =>
      { s1 with isPaused := !s1.isPaused, statusMsg := errText reason }

/-- Concrete local state used by the C9 counterexample. -/
def local0 : LocalState :=
  { isPaused := false, forcedPauseReason := none, contractStatus := "Active",
    totalPausedDuration := 0, statusMsg := "" }

end RentalApp

namespace RentalLedger

theorem csub_ok {a b v : Nat} (h : csub a b = Except.ok v) : b ≤ a ∧ v = a - b := by
  unfold csub at h
  split at h
  · injection h with h'
    exact ⟨by assumption, h'.symm⟩
  · cases h

theorem csub_of_le {a b : Nat} (h : b ≤ a) : csub a b = Except.ok (a - b) := by
  unfold csub
  rw [if_pos h]

theorem cadd_ok {a b v : Nat} (h : cadd a b = Except.ok v) : a + b < UMAX ∧ v = a + b := by
  unfold cadd at h
  split at h
  · injection h with h'
    exact ⟨by assumption, h'.symm⟩
  · cases h

theorem cmul_ok {a b v : Nat} (h : cmul a b = Except.ok v) : a * b < UMAX ∧ v = a * b := by
  unfold cmul at h
  split at h
  · injection h with h'
    exact ⟨by assumption, h'.symm⟩
  · cases h

theorem rent_ok {cfg : Config} {st : CState} {now sender value duration : Nat}
    {latE6 lonE6 : Int} {s' : CState}
    (h : rent cfg st now sender value duration latE6 lonE6 = Except.ok s') :
    st.rental.isActive = false ∧
    s' = { rental := { renter := sender, startTime := now, endTime := now + duration,
                       deposit := value, pausedDuration := 0, lastPausedAt := 0,
                       isActive := true, isPaused := false },
           balance := st.balance + value } := by
  have hb : st.rental.isActive = false := by
    by_contra hb
    simp only [Bool.not_eq_false] at hb
    unfold rent at h
    rw [if_pos hb] at h
    cases h
  refine ⟨hb, ?_⟩
  unfold rent at h
  rw [if_neg (by simp [hb])] at h
  split at h
  · cases h
  · split at h
    · cases h
    · split at h
      · cases h
      · cases h
      · split at h
        · cases h
        · rename_i endT heq
          obtain ⟨_, he⟩ := cadd_ok heq
          injection h with h'
          rw [← h', he]

theorem pause_ok {st : CState} {now sender : Nat} {s' : CState}
    (h : pauseRental st now sender = Except.ok s') :
    st.rental.isActive = true ∧ st.rental.isPaused = false ∧
    s' = { st with rental := { st.rental with isPaused := true, lastPausedAt := now } } := by
  have hb : st.rental.isActive = true := by
    by_contra hb
    simp only [Bool.not_eq_true] at hb
    unfold pauseRental at h
    rw [if_pos hb] at h
    cases h
  have hp : st.rental.isPaused = false := by
    by_contra hp
    simp only [Bool.not_eq_false] at hp
    unfold pauseRental at h
    rw [if_neg (by simp [hb]), if_pos hp] at h
    cases h
  refine ⟨hb, hp, ?_⟩
  unfold pauseRental at h
  rw [if_neg (by simp [hb]), if_neg (by simp [hp])] at h
  split at h
  · cases h
  · injection h with h'
    exact h'.symm

theorem resume_ok {st : CState} {now sender : Nat} {s' : CState}
    (h : resumeRental st now sender = Except.ok s') :
    st.rental.isActive = true ∧ st.rental.isPaused = true ∧
    st.rental.lastPausedAt ≤ now ∧
    s' = { st with rental := { st.rental with
             pausedDuration := st.rental.pausedDuration + (now - st.rental.lastPausedAt),
             isPaused := false } } := by
  have hb : st.rental.isActive = true := by
    by_contra hb
    simp only [Bool.not_eq_true] at hb
    unfold resumeRental at h
    rw [if_pos hb] at h
    cases h
  have hp : st.rental.isPaused = true := by
    by_contra hp
    simp only [Bool.not_eq_true] at hp
    unfold resumeRental at h
    rw [if_neg (by simp [hb]), if_pos hp] at h
    cases h
  unfold resumeRental at h
  rw [if_neg (by simp [hb]), if_neg (by simp [hp])] at h
  split at h
  · cases h
  · split at h
    · cases h
    · rename_i delta heq1
      split at h
      · cases h
      · rename_i pd heq2
        obtain ⟨hle, hd⟩ := csub_ok heq1
        obtain ⟨_, hpd⟩ := cadd_ok heq2
        refine ⟨hb, hp, hle, ?_⟩
        rw [hpd, hd] at h
        injection h with h'
        exact h'.symm

theorem return_ok {cfg : Config} {st : CState} {now sender : Nat}
    {out : CState × Settlement × List Eff}
    (h : returnEquipment cfg st now sender = Except.ok out) :
    st.rental.isActive = true ∧ sender = st.rental.renter ∧
    ∃ u due,
      calculateUsedTime st.rental now = Except.ok u ∧
      cmul u cfg.pricePerSecond = Except.ok due ∧
      out.2.1 = { usedSeconds := u,
                  amountPaid := if due > st.rental.deposit then st.rental.deposit else due,
                  refundAmount := if due > st.rental.deposit then 0 else st.rental.deposit - due } ∧
      out.1.rental = { st.rental with isActive := false } ∧
      out.2.2 = Eff.deactivate ::
        (((if (if due > st.rental.deposit then st.rental.deposit else due) > 0
            then [Eff.transfer cfg.lessor (if due > st.rental.deposit then st.rental.deposit else due)]
            else []) ++
          (if (if due > st.rental.deposit then 0 else st.rental.deposit - due) > 0
            then [Eff.transfer st.rental.renter (if due > st.rental.deposit then 0 else st.rental.deposit - due)]
            else []))) := by
  have hb : st.rental.isActive = true := by
    by_contra hb
    simp only [Bool.not_eq_true] at hb
    unfold returnEquipment at h
    rw [if_pos hb] at h
    cases h
  refine ⟨hb, ?_⟩
  simp only [returnEquipment] at h
  rw [if_neg (by simp [hb])] at h
  split at h
  · cases h
  · rename_i hs
    refine ⟨not_not.mp hs, ?_⟩
    split at h
    · cases h
    · rename_i u hu
      split at h
      · cases h
      · rename_i due hdue
        split at h
        · cases h
        · rename_i b1 hb1
          split at h
          · cases h
          · rename_i b2 hb2
            injection h with h'
            subst h'
            exact ⟨u, due, hu, hdue, rfl, rfl, rfl⟩

theorem withdraw_ok {cfg : Config} {st : CState} {sender : Nat}
    {out : CState × List Eff}
    (h : emergencyWithdraw cfg st sender = Except.ok out) :
    sender = cfg.owner ∧ st.rental.isActive = false ∧ out.1.rental = st.rental := by
  by_cases hs : sender = cfg.owner
  · cases hb : st.rental.isActive with
    | true => simp [emergencyWithdraw, hs, hb] at h
    | false =>
      simp only [emergencyWithdraw, hb] at h
      rw [if_neg (by simp [hs]), if_neg (by simp)] at h
      injection h with h'
      exact ⟨hs, rfl, by rw [← h']⟩
  · simp [emergencyWithdraw, hs] at h

theorem exec_ret_ok {cfg : Config} {st : CState} {now sender : Nat} {s' : CState}
    (h : exec cfg st now (Op.retOp sender) = Except.ok s') :
    ∃ out, returnEquipment cfg st now sender = Except.ok out ∧ s' = out.1 := by
  simp only [exec] at h
  split at h
  · rename_i out heq
    injection h with h'
    exact ⟨out, heq, h'.symm⟩
  · cases h

theorem exec_withdraw_ok {cfg : Config} {st : CState} {now sender : Nat} {s' : CState}
    (h : exec cfg st now (Op.withdrawOp sender) = Except.ok s') :
    ∃ out, emergencyWithdraw cfg st sender = Except.ok out ∧ s' = out.1 := by
  simp only [exec] at h
  split at h
  · rename_i out heq
    injection h with h'
    exact ⟨out, heq, h'.symm⟩
  · cases h

end RentalLedger

namespace RentalLedger

theorem ActiveInv_mono {t t' : Nat} {r : Rental} (hle : t ≤ t') (h : ActiveInv t r) :
    ActiveInv t' r := by
  intro ha
  obtain ⟨h1, h2, h3⟩ := h ha
  exact ⟨h1, fun hp => ⟨(h2 hp).1, le_trans (h2 hp).2 hle⟩, fun hp => le_trans (h3 hp) hle⟩

theorem reachable_activeInv {cfg : Config} {t : Nat} {s : CState}
    (h : Reachable cfg t s) : ActiveInv t s.rental := by
  induction h with
  | init => intro ha; cases ha
  | step t t' s s' op hr hle hexec ih =>
    cases op with
    | rentOp sender value duration latE6 lonE6 =>
      obtain ⟨hia, hs'⟩ := rent_ok hexec
      subst hs'
      intro _
      refine ⟨Nat.le_add_right _ _, ?_, ?_⟩
      · intro hp; cases hp
      · intro _; exact Nat.le_of_eq (Nat.add_zero t')
    | pauseOp sender =>
      obtain ⟨hia, hip, hs'⟩ := pause_ok hexec
      subst hs'
      intro _
      obtain ⟨h1, _, h3⟩ := ih hia
      refine ⟨h1, ?_, ?_⟩
      · intro _; exact ⟨le_trans (h3 hip) hle, le_refl t'⟩
      · intro hp; cases hp
    | resumeOp sender =>
      obtain ⟨hia, hip, hlpa, hs'⟩ := resume_ok hexec
      subst hs'
      intro _
      obtain ⟨h1, h2, _⟩ := ih hia
      obtain ⟨h21, h22⟩ := h2 hip
      refine ⟨h1, ?_, ?_⟩
      · intro hp; cases hp
      · intro _
        show s.rental.startTime + (s.rental.pausedDuration + (t' - s.rental.lastPausedAt)) ≤ t'
        have hlt : s.rental.lastPausedAt ≤ t' := le_trans h22 hle
        omega
    | retOp sender =>
      obtain ⟨out, heq, hs'⟩ := exec_ret_ok hexec
      obtain ⟨hia, _, _, _, _, _, _, hrl, _⟩ := return_ok heq
      subst hs'
      intro ha
      rw [hrl] at ha
      have ha' : (false : Bool) = true := ha
      cases ha'
    | withdrawOp sender =>
      obtain ⟨out, heq, hs'⟩ := exec_withdraw_ok hexec
      obtain ⟨_, hia, hrl⟩ := withdraw_ok heq
      subst hs'
      intro ha
      rw [hrl, hia] at ha
      cases ha

theorem reachableG_paused_implies_active_aux {cfg : Config} {t : Nat} {s : CState}
    (h : ReachableG cfg t s) : s.rental.isPaused = true → s.rental.isActive = true := by
  induction h with
  | init => intro hp; cases hp
  | step t t' s s' op hr hle hexec hret ih =>
    cases op with
    | rentOp sender value duration latE6 lonE6 =>
      obtain ⟨hia, hs'⟩ := rent_ok hexec
      subst hs'
      intro hp; cases hp
    | pauseOp sender =>
      obtain ⟨hia, hip, hs'⟩ := pause_ok hexec
      subst hs'
      intro _; exact hia
    | resumeOp sender =>
      obtain ⟨hia, hip, hlpa, hs'⟩ := resume_ok hexec
      subst hs'
      intro hp; cases hp
    | retOp sender =>
      obtain ⟨out, heq, hs'⟩ := exec_ret_ok hexec
      obtain ⟨hia, _, _, _, _, _, _, hrl, _⟩ := return_ok heq
      have hp0 : s.rental.isPaused = false := hret sender rfl
      subst hs'
      intro hp
      rw [hrl] at hp
      have hp' : s.rental.isPaused = true := hp
      rw [hp0] at hp'
      cases hp'
    | withdrawOp sender =>
      obtain ⟨out, heq, hs'⟩ := exec_withdraw_ok hexec
      obtain ⟨_, hia, hrl⟩ := withdraw_ok heq
      subst hs'
      intro hp
      rw [hrl] at hp
      have := ih hp
      rw [hia] at this
      cases this

end RentalLedger

namespace RentalLedger

theorem ite_gt_eq_min {a b : Nat} : (if a > b then b else a) = min a b := by
  split <;> omega

theorem calculateUsedTime_active {r : Rental} {now : Nat} (ha : r.isActive = true)
    (h1 : r.startTime + r.pausedDuration ≤ (if r.isPaused = true then r.lastPausedAt else now))
    (h2 : r.startTime ≤ r.endTime) :
    calculateUsedTime r now =
      Except.ok (min ((if r.isPaused = true then r.lastPausedAt else now)
          - r.startTime - r.pausedDuration) (r.endTime - r.startTime)) := by
  cases hp : r.isPaused with
  | true =>
    rw [hp, if_pos rfl] at h1
    have hb1 : r.startTime ≤ r.lastPausedAt := by omega
    have hb2 : r.pausedDuration ≤ r.lastPausedAt - r.startTime := by omega
    simp only [calculateUsedTime, ha, hp, eq_self_iff_true, if_true, Bool.true_eq_false,
      if_false, csub_of_le hb1, csub_of_le hb2, csub_of_le h2, ite_gt_eq_min]
  | false =>
    rw [hp] at h1
    simp only [Bool.false_eq_true, if_false] at h1
    have hb1 : r.startTime ≤ now := by omega
    have hb2 : r.pausedDuration ≤ now - r.startTime := by omega
    simp only [calculateUsedTime, ha, hp, Bool.false_eq_true, if_false, Bool.true_eq_false,
      csub_of_le hb1, csub_of_le hb2, csub_of_le h2, ite_gt_eq_min]

/-- C1: for every active rental state, every successful returnEquipment call
settles with amountPaid + refundAmount equal to the deposit, and whenever
usedSeconds * pricePerSecond exceeds the deposit the settlement is clamped to
amountPaid = deposit and refundAmount = 0, so the renter never owes more than
the deposit. -/
theorem C1_settlement_invariant {cfg : Config} {st : CState} {now sender : Nat}
    {out : CState × Settlement × List Eff}
    (h : returnEquipment cfg st now sender = Except.ok out) :
    out.2.1.amountPaid + out.2.1.refundAmount = st.rental.deposit ∧
    (out.2.1.usedSeconds * cfg.pricePerSecond > st.rental.deposit →
      out.2.1.amountPaid = st.rental.deposit ∧ out.2.1.refundAmount = 0) := by
  obtain ⟨hia, hsend, u, due, hu, hdue, hsettl, hrental, htrace⟩ := return_ok h
  obtain ⟨_, hduev⟩ := cmul_ok hdue
  rw [hsettl]
  refine ⟨?_, ?_⟩
  · show (if due > st.rental.deposit then st.rental.deposit else due) +
        (if due > st.rental.deposit then 0 else st.rental.deposit - due) = st.rental.deposit
    by_cases hc : due > st.rental.deposit
    · rw [if_pos hc, if_pos hc]
      omega
    · rw [if_neg hc, if_neg hc]
      omega
  · intro hgt
    have hgt0 : u * cfg.pricePerSecond > st.rental.deposit := hgt
    have hgt' : due > st.rental.deposit := by omega
    refine ⟨?_, ?_⟩
    · show (if due > st.rental.deposit then st.rental.deposit else due) = st.rental.deposit
      rw [if_pos hgt']
    · show (if due > st.rental.deposit then 0 else st.rental.deposit - due) = 0
      rw [if_pos hgt']

/-- Concrete successful return used by the C1 witness: returnEquipment on
sRent at time 5 by the renter. -/
def outC1 : CState × Settlement × List Eff :=
  ({ rental := { renter := 2, startTime := 0, endTime := 10, deposit := 10,
                 pausedDuration := 0, lastPausedAt := 0, isActive := false, isPaused := false },
     balance := 0 },
   { usedSeconds := 5, amountPaid := 5, refundAmount := 5 },
   [Eff.deactivate, Eff.transfer 1 5, Eff.transfer 2 5])

/-- Witness for C1 at a concrete successful return. -/
theorem C1_settlement_witness :
    outC1.2.1.amountPaid + outC1.2.1.refundAmount = sRent.rental.deposit ∧
    (outC1.2.1.usedSeconds * cfg0.pricePerSecond > sRent.rental.deposit →
      outC1.2.1.amountPaid = sRent.rental.deposit ∧ outC1.2.1.refundAmount = 0) :=
  @C1_settlement_invariant cfg0 sRent 5 2 outC1 (by decide)

/-- C5: in every successful returnEquipment execution the effect trace starts
with the storage write deactivating the rental, and everything after it is a
fund transfer: the deactivation is recorded before any transfer is
attempted. -/
theorem mem_ite_singleton {α : Type} {e x : α} {c : Prop} [Decidable c]
    (h : e ∈ if c then [x] else ([] : List α)) : e = x := by
  split at h
  · exact List.mem_singleton.mp h
  · cases h

theorem C5_deactivation_before_transfers {cfg : Config} {st : CState} {now sender : Nat}
    {out : CState × Settlement × List Eff}
    (h : returnEquipment cfg st now sender = Except.ok out) :
    ∃ l, out.2.2 = Eff.deactivate :: l ∧ ∀ e ∈ l, ∃ a b, e = Eff.transfer a b := by
  obtain ⟨_, _, u, due, _, _, _, _, htrace⟩ := return_ok h
  refine ⟨_, htrace, ?_⟩
  intro e he
  rcases List.mem_append.mp he with h1 | h1
  · exact ⟨_, _, mem_ite_singleton h1⟩
  · exact ⟨_, _, mem_ite_singleton h1⟩

/-- Concrete successful return used by the C5 witness: returnEquipment on
the paused state sPaused at time 2 by the renter. -/
def outC5 : CState × Settlement × List Eff :=
  (sReturned,
   { usedSeconds := 1, amountPaid := 1, refundAmount := 9 },
   [Eff.deactivate, Eff.transfer 1 1, Eff.transfer 2 9])

/-- Witness for C5 at a concrete successful return. -/
theorem C5_witness :
    ∃ l, outC5.2.2 = Eff.deactivate :: l ∧ ∀ e ∈ l, ∃ a b, e = Eff.transfer a b :=
  @C5_deactivation_before_transfers cfg0 sPaused 2 2 outC5 (by decide)

/-- C10: whenever no rental is active, calculateUsedTime returns 0 regardless
of the stale values left in the other fields. -/
theorem C10_inactive_used_time_zero {r : Rental} {now : Nat} (h : r.isActive = false) :
    calculateUsedTime r now = Except.ok 0 := by
  unfold calculateUsedTime
  rw [if_pos h]

/-- Witness for C10 on the stale post-return state. -/
theorem C10_witness : calculateUsedTime sStale.rental 70 = Except.ok 0 :=
  C10_inactive_used_time_zero rfl

theorem cadd_of_lt {a b : Nat} (h : a + b < UMAX) : cadd a b = Except.ok (a + b) := by
  unfold cadd
  rw [if_pos h]

theorem cmul_of_lt {a b : Nat} (h : a * b < UMAX) : cmul a b = Except.ok (a * b) := by
  unfold cmul
  rw [if_pos h]

theorem isub_of_natAbs_lt {a b : Int} (h : (a - b).natAbs < 2 ^ 255) :
    isub a b = Except.ok (a - b) := by
  have h1 : |a - b| < (2 : Int) ^ 255 := by
    rw [Int.abs_eq_natAbs]
    exact_mod_cast h
  obtain ⟨hl, hu⟩ := abs_lt.mp h1
  have hL : IMIN ≤ a - b := by
    unfold IMIN
    exact le_of_lt hl
  have hU : a - b ≤ IMAX := by
    unfold IMAX
    exact Int.le_sub_one_iff.mpr hu
  unfold isub
  rw [if_pos ⟨hL, hU⟩]

theorem iabs_of_natAbs_lt {d : Int} (h : d.natAbs < 2 ^ 255) :
    iabs d = Except.ok d.natAbs := by
  have hcalc : (IMIN : Int).natAbs = 2 ^ 255 := by decide
  have hne : d ≠ IMIN := by
    intro he
    rw [he, hcalc] at h
    exact absurd h (lt_irrefl _)
  unfold iabs
  rw [if_neg hne]

theorem axis_bounds {A r2 : Nat}
    (hle : (A * 111000 / 1000000) * (A * 111000 / 1000000) ≤ r2)
    (hr : r2 < UMAX) :
    A < 2 ^ 255 ∧ A * 111000 < UMAX := by
  have hmm : (A * 111000 / 1000000) * (A * 111000 / 1000000) < UMAX := lt_of_le_of_lt hle hr
  have hm : A * 111000 / 1000000 < 2 ^ 128 := by
    by_contra hmge
    push_neg at hmge
    have h2 : (2 : Nat) ^ 128 * 2 ^ 128 ≤ (A * 111000 / 1000000) * (A * 111000 / 1000000) :=
      Nat.mul_le_mul hmge hmge
    have h3 : UMAX = 2 ^ 128 * 2 ^ 128 := by decide
    exact absurd hmm (by rw [h3]; exact not_lt.mpr h2)
  have hA6 : A * 111000 < 2 ^ 128 * 1000000 :=
    (Nat.div_lt_iff_lt_mul (by norm_num)).mp hm
  have hle1 : A ≤ A * 111000 := le_mul_of_one_le_right (Nat.zero_le _) (by norm_num)
  have hc1 : (2 : Nat) ^ 128 * 1000000 < 2 ^ 255 := by decide
  have hc2 : (2 : Nat) ^ 255 < UMAX := by decide
  exact ⟨lt_of_le_of_lt hle1 (lt_trans hA6 hc1), lt_trans hA6 (lt_trans hc1 hc2)⟩

theorem withinGeoZone_center (cfg : Config) :
    withinGeoZone cfg cfg.centerLat cfg.centerLon = Except.ok true := by
  have hA : (cfg.centerLat - cfg.centerLat).natAbs = 0 := by
    rw [Int.sub_self]
    rfl
  have hB : (cfg.centerLon - cfg.centerLon).natAbs = 0 := by
    rw [Int.sub_self]
    rfl
  have hlt : (cfg.centerLat - cfg.centerLat).natAbs < 2 ^ 255 := by
    rw [hA]
    decide
  have hltB : (cfg.centerLon - cfg.centerLon).natAbs < 2 ^ 255 := by
    rw [hB]
    decide
  have hm : (cfg.centerLat - cfg.centerLat).natAbs * 111000 < UMAX := by
    rw [hA]
    decide
  have hmB : (cfg.centerLon - cfg.centerLon).natAbs * 111000 < UMAX := by
    rw [hB]
    decide
  have hs : ((cfg.centerLat - cfg.centerLat).natAbs * 111000 / 1000000) *
      ((cfg.centerLat - cfg.centerLat).natAbs * 111000 / 1000000) < UMAX := by
    rw [hA]
    decide
  have hsB : ((cfg.centerLon - cfg.centerLon).natAbs * 111000 / 1000000) *
      ((cfg.centerLon - cfg.centerLon).natAbs * 111000 / 1000000) < UMAX := by
    rw [hB]
    decide
  have hsum : ((cfg.centerLat - cfg.centerLat).natAbs * 111000 / 1000000) *
        ((cfg.centerLat - cfg.centerLat).natAbs * 111000 / 1000000) +
      ((cfg.centerLon - cfg.centerLon).natAbs * 111000 / 1000000) *
        ((cfg.centerLon - cfg.centerLon).natAbs * 111000 / 1000000) < UMAX := by
    rw [hA, hB]
    decide
  simp only [withinGeoZone, isub_of_natAbs_lt hlt, isub_of_natAbs_lt hltB,
    iabs_of_natAbs_lt hlt, iabs_of_natAbs_lt hltB, cmul_of_lt hm, cmul_of_lt hmB,
    cmul_of_lt hs, cmul_of_lt hsB, cadd_of_lt hsum]
  simp [hA, hB]

/-- C8: the membership test accepts the zone center of any configuration,
and is boundary-inclusive: for any deployed configuration (the constructor
computes radiusSquared = radius * radius with a checked multiplication, so
radius * radius is below 2^256) and any position whose computed squared
planar distance equals radius * radius, the test returns true; in
particular none of the checked arithmetic inside the test overflows on such
a boundary point. -/
theorem C8_zone_center_and_boundary {cfg : Config} {latE6 lonE6 : Int}
    (hr : cfg.radius * cfg.radius < UMAX)
    (hb : ((latE6 - cfg.centerLat).natAbs * 111000 / 1000000) *
            ((latE6 - cfg.centerLat).natAbs * 111000 / 1000000) +
          ((lonE6 - cfg.centerLon).natAbs * 111000 / 1000000) *
            ((lonE6 - cfg.centerLon).natAbs * 111000 / 1000000) =
          cfg.radius * cfg.radius) :
    withinGeoZone cfg cfg.centerLat cfg.centerLon = Except.ok true ∧
    withinGeoZone cfg latE6 lonE6 = Except.ok true := by
  constructor
  · exact withinGeoZone_center cfg
  · have hbl : ((latE6 - cfg.centerLat).natAbs * 111000 / 1000000) *
        ((latE6 - cfg.centerLat).natAbs * 111000 / 1000000) ≤ cfg.radius * cfg.radius :=
      Nat.le.intro hb
    have hb2 := hb
    rw [Nat.add_comm] at hb2
    have hbl2 : ((lonE6 - cfg.centerLon).natAbs * 111000 / 1000000) *
        ((lonE6 - cfg.centerLon).natAbs * 111000 / 1000000) ≤ cfg.radius * cfg.radius :=
      Nat.le.intro hb2
    obtain ⟨hAlt, hAmul⟩ := axis_bounds hbl hr
    obtain ⟨hBlt, hBmul⟩ := axis_bounds hbl2 hr
    have hsA : ((latE6 - cfg.centerLat).natAbs * 111000 / 1000000) *
        ((latE6 - cfg.centerLat).natAbs * 111000 / 1000000) < UMAX :=
      lt_of_le_of_lt hbl hr
    have hsB : ((lonE6 - cfg.centerLon).natAbs * 111000 / 1000000) *
        ((lonE6 - cfg.centerLon).natAbs * 111000 / 1000000) < UMAX :=
      lt_of_le_of_lt hbl2 hr
    have hsum : ((latE6 - cfg.centerLat).natAbs * 111000 / 1000000) *
          ((latE6 - cfg.centerLat).natAbs * 111000 / 1000000) +
        ((lonE6 - cfg.centerLon).natAbs * 111000 / 1000000) *
          ((lonE6 - cfg.centerLon).natAbs * 111000 / 1000000) < UMAX := by
      rw [hb]
      exact hr
    simp only [withinGeoZone, isub_of_natAbs_lt hAlt, isub_of_natAbs_lt hBlt,
      iabs_of_natAbs_lt hAlt, iabs_of_natAbs_lt hBlt, cmul_of_lt hAmul, cmul_of_lt hBmul,
      cmul_of_lt hsA, cmul_of_lt hsB, cadd_of_lt hsum]
    rw [hb]
    simp

/-- Configuration whose boundary is hit exactly by a point 1 degree of
latitude away from the center. -/
def cfgBoundary : Config :=
  { owner := 0, lessor := 1, pricePerSecond := 1, minDeposit := 0,
    centerLat := 0, centerLon := 0, radius := 111000 }

/-- Witness for C8 at a concrete boundary point. -/
theorem C8_witness :
    withinGeoZone cfgBoundary cfgBoundary.centerLat cfgBoundary.centerLon = Except.ok true ∧
    withinGeoZone cfgBoundary 1000000 0 = Except.ok true :=
  @C8_zone_center_and_boundary cfgBoundary 1000000 0 (by decide) (by decide)

end RentalLedger

namespace RentalLedger

/-- C2 amended: for every reachable state with an active rental and every
query instant no earlier than the last ledger transition, calculateUsedTime
returns min(baseTime - startTime - pausedDuration, endTime - startTime) with
baseTime = lastPausedAt while paused and now otherwise (Nat subtraction is
floored at 0), and the result never exceeds endTime - startTime (and, being a
Nat, is never negative). The claim as stated over every rental state fails on
inactive states, where the function returns 0 instead of the formula. -/
theorem C2_used_time_formula {cfg : Config} {t : Nat} {s : CState}
    (h : Reachable cfg t s) (ha : s.rental.isActive = true)
    (now : Nat) (hn : t ≤ now) :
    calculateUsedTime s.rental now =
      Except.ok (min ((if s.rental.isPaused = true then s.rental.lastPausedAt else now)
          - s.rental.startTime - s.rental.pausedDuration)
        (s.rental.endTime - s.rental.startTime)) ∧
    min ((if s.rental.isPaused = true then s.rental.lastPausedAt else now)
          - s.rental.startTime - s.rental.pausedDuration)
        (s.rental.endTime - s.rental.startTime) ≤
      s.rental.endTime - s.rental.startTime := by
  obtain ⟨h1, h2, h3⟩ := reachable_activeInv h ha
  have hb : s.rental.startTime + s.rental.pausedDuration ≤
      (if s.rental.isPaused = true then s.rental.lastPausedAt else now) := by
    cases hp : s.rental.isPaused with
    | true => simpa [hp] using (h2 hp).1
    | false => simpa [hp] using le_trans (h3 hp) hn
  exact ⟨calculateUsedTime_active ha hb h1, min_le_right _ _⟩

/-- Witness for C2 on the reachable active state sRent queried at time 5. -/
theorem C2_witness :
    calculateUsedTime sRent.rental 5 =
      Except.ok (min ((if sRent.rental.isPaused = true then sRent.rental.lastPausedAt else 5)
          - sRent.rental.startTime - sRent.rental.pausedDuration)
        (sRent.rental.endTime - sRent.rental.startTime)) ∧
    min ((if sRent.rental.isPaused = true then sRent.rental.lastPausedAt else 5)
          - sRent.rental.startTime - sRent.rental.pausedDuration)
        (sRent.rental.endTime - sRent.rental.startTime) ≤
      sRent.rental.endTime - sRent.rental.startTime := by
  have h1 : Reachable cfg0 0 sRent :=
    Reachable.step 0 0 initState sRent (Op.rentOp 2 10 10 0 0) Reachable.init
      (Nat.le_refl 0) (by decide)
  exact C2_used_time_formula h1 rfl 5 (Nat.zero_le 5)

/-- Counterexample to C2 as stated: the stale state sStale is reachable
(rent at 0 for 100 seconds, return at 60), yet at time 70 calculateUsedTime
returns 0 while the claimed formula evaluates to 70. -/
theorem C2_counterexample :
    Reachable cfg0 60 sStale ∧
    min (70 - sStale.rental.startTime - sStale.rental.pausedDuration)
        (sStale.rental.endTime - sStale.rental.startTime) = 70 ∧
    calculateUsedTime sStale.rental 70 = Except.ok 0 ∧
    calculateUsedTime sStale.rental 70 ≠ Except.ok 70 := by
  refine ⟨?_, by decide, rfl, by decide⟩
  have h1 : Reachable cfg0 0 sRentLong :=
    Reachable.step 0 0 initState sRentLong (Op.rentOp 2 100 100 0 0) Reachable.init
      (Nat.le_refl 0) (by decide)
  exact Reachable.step 0 60 sRentLong sStale (Op.retOp 2) h1 (Nat.zero_le 60) (by decide)

/-- C3 amended: the invariant isPaused implies isActive holds in every state
reachable from the initial state by rent, pauseRental, resumeRental,
returnEquipment and emergencyWithdraw, provided returnEquipment is only
invoked on a non-paused rental. (Unrestricted, the invariant fails:
returnEquipment clears only isActive and leaves isPaused set, see the
counterexample.) -/
theorem C3_paused_implies_active {cfg : Config} {t : Nat} {s : CState}
    (h : ReachableG cfg t s) (hp : s.rental.isPaused = true) :
    s.rental.isActive = true :=
  reachableG_paused_implies_active_aux h hp

/-- Witness for C3 on the reachable paused state sPaused. -/
theorem C3_witness : sPaused.rental.isActive = true := by
  have h1 : ReachableG cfg0 0 sRent :=
    ReachableG.step 0 0 initState sRent (Op.rentOp 2 10 10 0 0) ReachableG.init
      (Nat.le_refl 0) (by decide) (fun a ha => nomatch ha)
  have h2 : ReachableG cfg0 1 sPaused :=
    ReachableG.step 0 1 sRent sPaused (Op.pauseOp 2) h1 (Nat.zero_le 1) (by decide)
      (fun a ha => nomatch ha)
  exact C3_paused_implies_active h2 rfl

/-- Counterexample to C3 as stated: rent at 0, pause at 1, return at 2 give a
reachable state with isPaused = true and isActive = false, because
returnEquipment does not clear isPaused. -/
theorem C3_counterexample :
    Reachable cfg0 2 sReturned ∧ sReturned.rental.isPaused = true ∧
    sReturned.rental.isActive = false := by
  refine ⟨?_, rfl, rfl⟩
  have h1 : Reachable cfg0 0 sRent :=
    Reachable.step 0 0 initState sRent (Op.rentOp 2 10 10 0 0) Reachable.init
      (Nat.le_refl 0) (by decide)
  have h2 : Reachable cfg0 1 sPaused :=
    Reachable.step 0 1 sRent sPaused (Op.pauseOp 2) h1 (Nat.zero_le 1) (by decide)
  exact Reachable.step 1 2 sPaused sReturned (Op.retOp 2) h2 (by decide) (by decide)

/-- C6 amended: getStatus reports Available exactly when no rental is
active, Paused exactly when active and paused, Overdue exactly when active,
not paused and past endTime, and Active otherwise; the pause check precedes
the overdue check, so a paused rental past endTime reports Paused, not
Overdue (against the claim, which keys Overdue on isActive alone). -/
theorem C6_status_characterization (r : Rental) (now : Nat) :
    (getStatus r now = "Overdue" ↔
      r.isActive = true ∧ r.isPaused = false ∧ now > r.endTime) ∧
    (getStatus r now = "Available" ↔ r.isActive = false) ∧
    (getStatus r now = "Paused" ↔ r.isActive = true ∧ r.isPaused = true) ∧
    (getStatus r now = "Active" ↔
      r.isActive = true ∧ r.isPaused = false ∧ now ≤ r.endTime) := by
  cases ha : r.isActive <;> cases hp : r.isPaused <;> by_cases hn : now > r.endTime <;>
    have hn' := hn <;>
    simp only [Nat.not_lt] at hn' <;>
    simp [getStatus, ha, hp, hn, hn']

/-- Rental record that is active, paused and past its end time. -/
def rOverduePaused : Rental :=
  { renter := 2, startTime := 0, endTime := 50, deposit := 10,
    pausedDuration := 0, lastPausedAt := 1, isActive := true, isPaused := true }

/-- Counterexample to C6 as stated: an active paused rental past endTime is
reported as Paused, not Overdue, although isActive is true and the time is
past endTime. -/
theorem C6_counterexample :
    rOverduePaused.isActive = true ∧ 100 > rOverduePaused.endTime ∧
    getStatus rOverduePaused 100 = "Paused" ∧
    getStatus rOverduePaused 100 ≠ "Overdue" := by
  exact ⟨rfl, by decide, rfl, by decide⟩

/-- C7 amended: while a rental is active, every rent call rejects with the
reason "Already rented" (the source capitalises the first letter; the claim
writes "already rented") and creates no new Rental: the state is unchanged. -/
theorem C7_rent_mutex {cfg : Config} {st : CState} {now sender value duration : Nat}
    {latE6 lonE6 : Int} (h : st.rental.isActive = true) :
    exec cfg st now (Op.rentOp sender value duration latE6 lonE6) =
      Except.error "Already rented" ∧
    applyOp cfg st now (Op.rentOp sender value duration latE6 lonE6) = st := by
  have he : exec cfg st now (Op.rentOp sender value duration latE6 lonE6) =
      Except.error "Already rented" := by
    simp [exec, rent, h]
  refine ⟨he, ?_⟩
  simp [applyOp, he]

/-- Witness for C7 on the active state sRentLong. -/
theorem C7_witness :
    exec cfg0 sRentLong 7 (Op.rentOp 9 1000 3600 0 0) = Except.error "Already rented" ∧
    applyOp cfg0 sRentLong 7 (Op.rentOp 9 1000 3600 0 0) = sRentLong :=
  C7_rent_mutex rfl

/-- Counterexample to C7 as stated: the revert reason emitted by rent while a
rental is active is the string "Already rented", not "already rented". -/
theorem C7_counterexample :
    rent cfg0 sRent 3 5 50 7 0 0 = Except.error "Already rented" ∧
    rent cfg0 sRent 3 5 50 7 0 0 ≠ Except.error "already rented" := by
  exact ⟨rfl, by decide⟩

end RentalLedger

namespace RentalApp

/-- C9 amended: for a manual pause/resume issued by handlePause, transaction
failure reverts the optimistic local pause flag to its pre-attempt value and
surfaces an error message; for the zone-triggered automatic pause, the
failure handler only logs, so the optimistic mutations (local pause flag and
forcedPauseReason) are not reverted and no error message is surfaced. -/
theorem C9_manual_rollback_auto_none (s : LocalState) (reason authStatus : String)
    (p : Bool) (d : Nat) :
    (handlePause s (TxOutcome.failed reason) authStatus p d).isPaused = s.isPaused ∧
    (handlePause s (TxOutcome.failed reason) authStatus p d).statusMsg = errText reason ∧
    resolveAutoPauseTx (autoPauseZoneExit s) (TxOutcome.failed reason) =
      autoPauseZoneExit s ∧
    (resolveAutoPauseTx (autoPauseZoneExit s) (TxOutcome.failed reason)).isPaused = true ∧
    (resolveAutoPauseTx (autoPauseZoneExit s) (TxOutcome.failed reason)).forcedPauseReason =
      some "zone" := by
  refine ⟨?_, rfl, rfl, rfl, rfl⟩
  simp [handlePause, Bool.not_not]

/-- Counterexample to C9 as stated: after a failed zone-triggered auto-pause
transaction the optimistic flags stay set (isPaused stays true,
forcedPauseReason stays "zone") and the status message is not an error. -/
theorem C9_counterexample :
    local0.isPaused = false ∧
    (resolveAutoPauseTx (autoPauseZoneExit local0) (TxOutcome.failed "reverted")).isPaused
      = true ∧
    (resolveAutoPauseTx (autoPauseZoneExit local0)
      (TxOutcome.failed "reverted")).forcedPauseReason = some "zone" ∧
    (resolveAutoPauseTx (autoPauseZoneExit local0) (TxOutcome.failed "reverted")).statusMsg
      ≠ errText "reverted" := by
  exact ⟨rfl, rfl, rfl, by decide⟩

end RentalApp
